import Mathlib

/-!
Verification of the variable-services core of `mu_rust_helpers`
(`src/runtime_services/src/runtime_services.rs`).

The Rust code is embedded shallowly:

* EFI status codes (`r_efi::efi::Status`, a `usize` whose top bit marks an
  error) become `Nat` with the error bit at `2^63`.
* GUID namespaces are abstracted to `Nat` (only construction and equality
  are used by the code under verification).
* Raw firmware calls through the service table are parameters (oracles):
  a raw `GetVariable` slot maps a call input to a status plus the bytes it
  writes in place; the call index argument lets an oracle model stateful
  firmware.  In-place writes through raw pointers are modelled by
  `overwrite`, which never changes the length of the destination buffer,
  exactly like a write through `as_mut_ptr()` never changes `Vec::len`.
* `debug_assert!` is build-dependent: it panics when the build has debug
  assertions enabled and is a no-op otherwise.  Every function containing
  one takes a `dbg : Bool` flag (`true` = debug assertions enabled);
  `assert!` is unconditional in both configurations.
* Functions that can panic return an `Outcome`, with `.panic` for an
  abort, `.err` for a returned `efi::Status`, and `.ok` for success.
* Functions whose claims count underlying table calls additionally return
  a trace of the raw-call inputs they issued, in order.
-/

/-- EFI status code, modelled as a natural number below `2^64`. -/
abbrev Status := Nat

/-- Namespace GUID, abstracted to a natural number (16 raw bytes in Rust;
only equality and construction are used by the embedded code). -/
abbrev Guid := Nat

/-- The high bit of a 64-bit `usize`: set on every EFI error code. -/
def ERROR_BIT : Nat := 2 ^ 63

/-- `efi::Status::SUCCESS`. -/
def EFI_SUCCESS : Status := 0

/-- `efi::Status::INVALID_PARAMETER` (error bit plus 2). -/
def EFI_INVALID_PARAMETER : Status := ERROR_BIT + 2

/-- `efi::Status::BUFFER_TOO_SMALL` (error bit plus 5). -/
def EFI_BUFFER_TOO_SMALL : Status := ERROR_BIT + 5

/-- `efi::Status::NOT_FOUND` (error bit plus 14). -/
def EFI_NOT_FOUND : Status := ERROR_BIT + 14

/-- `Status::is_error`: tests the high bit of the status word. -/
def Status.is_error (s : Status) : Bool := decide (s / ERROR_BIT % 2 = 1)

/-- Result of a fallible call that may also abort the process. -/
inductive Outcome (α : Type) where
  | ok : α → Outcome α
  | err : Status → Outcome α
  | panic : Outcome α
deriving DecidableEq

/-- `Vec::resize(n, v)`: truncate to `n` elements, or extend with copies
of `v`. -/
def resizeFill (l : List Nat) (n : Nat) (v : Nat) : List Nat :=
  if n ≤ l.length then l.take n else l ++ List.replicate (n - l.length) v

/-- In-place write of `new` over the front of `old` through a raw pointer:
the logical length of `old` never changes. -/
def overwrite (old new : List Nat) : List Nat :=
  new.take old.length ++ old.drop new.length

/-- `variable_services::GetVariableStatus`. -/
inductive GetVariableStatus where
  | Success (data_size : Nat) (attributes : Nat)
  | BufferTooSmall (data_size : Nat) (attributes : Nat)
  | Error (e : Status)
deriving DecidableEq

/-- The positional inputs of one raw `GetVariable` table call: name,
vendor GUID, the value of `*data_size` on entry, and whether a data
buffer pointer (non-null) was passed. -/
structure GetVarCallInput where
  name : List Nat
  nspace : Guid
  data_size : Nat
  hasData : Bool
deriving DecidableEq

/-- Abstract `get_variable_unchecked` collaborator used by the trait's
provided methods: call index, name, namespace, and optional data buffer
map to the interpreted status plus the bytes written into the buffer. -/
abbrev GetOracle := Nat → List Nat → Guid → Option (List Nat) → GetVariableStatus × List Nat

/-- Abstract `set_variable_unchecked` collaborator: name, namespace,
attributes, and data map to the call's outcome. -/
abbrev SetOracle := List Nat → Guid → Nat → List Nat → Outcome Unit

/-- The `loop` inside `RuntimeServices::get_variable`: issue the raw call
with the current buffer (`None` when empty), and on a first-attempt
`BufferTooSmall` resize to the reported size (fill byte `10`, as in the
source) and iterate with `first_attempt = false`.  Returns the outcome
together with the trace of raw-call inputs. -/
def RuntimeServices.getVarLoop {T : Type} (unchecked : GetOracle)
    (tryFrom : List Nat → Option T) (name : List Nat) (ns : Guid)
    (first_attempt : Bool) (data : List Nat) (idx : Nat) :
    Outcome (T × Nat) × List GetVarCallInput :=
  let passed : Option (List Nat) := if data.length = 0 then none else some data
  let input : GetVarCallInput := ⟨name, ns, data.length, data.length != 0⟩
  let res := unchecked idx name ns passed
  let data1 : List Nat := match passed with
    | some d => overwrite d res.2
    | none => data
  match res.1 with
  | .Success _ attrs =>
    (match tryFrom data1 with
     | some d => (.ok (d, attrs), [input])
     | none => (.err EFI_INVALID_PARAMETER, [input]))
  | .BufferTooSmall ds _ =>
    if h : first_attempt = true then
      let r := RuntimeServices.getVarLoop unchecked tryFrom name ns false
        (resizeFill data1 ds 10) (idx + 1)
      (r.1, input :: r.2)
    else
      (.err EFI_BUFFER_TOO_SMALL, [input])
  | .Error e => (.err e, [input])
termination_by cond first_attempt 1 0
decreasing_by simp [h]

/-- `RuntimeServices::get_variable` (trait provided method): reject a name
with no zero code unit (`debug_assert!` first), pre-size the buffer from
the hint, then run the negotiation loop. -/
def RuntimeServices.get_variable {T : Type} (dbg : Bool) (unchecked : GetOracle)
    (tryFrom : List Nat → Option T) (name : List Nat) (ns : Guid)
    (size_hint : Option Nat) : Outcome (T × Nat) × List GetVarCallInput :=
  if name.contains 0 then
    let data : List Nat := match size_hint with
      | some n => resizeFill [] n 0
      | none => []
    RuntimeServices.getVarLoop unchecked tryFrom name ns true data 0
  else
    (if dbg then .panic else .err EFI_INVALID_PARAMETER, [])

/-- `RuntimeServices::set_variable` (trait provided method): reject a name
with no zero code unit, else a single unchecked call.  The second
component counts the unchecked calls made (0 or 1). -/
def RuntimeServices.set_variable (dbg : Bool) (unchecked : SetOracle)
    (name : List Nat) (ns : Guid) (attributes : Nat) (data : List Nat) :
    Outcome Unit × Nat :=
  if name.contains 0 then
    (unchecked name ns attributes data, 1)
  else
    (if dbg then .panic else .err EFI_INVALID_PARAMETER, 0)

/-- `RuntimeServices::get_variable_size_and_attributes`: terminator check,
then a single unchecked call with no data buffer; `BufferTooSmall` is the
expected answer, `Success` trips a `debug_assert!` and otherwise still
returns `Ok`. -/
def RuntimeServices.get_variable_size_and_attributes (dbg : Bool)
    (unchecked : GetOracle) (name : List Nat) (ns : Guid) :
    Outcome (Nat × Nat) × List GetVarCallInput :=
  if name.contains 0 then
    (match (unchecked 0 name ns none).1 with
     | .BufferTooSmall ds attrs => .ok (ds, attrs)
     | .Error e => .err e
     | .Success ds attrs => if dbg then .panic else .ok (ds, attrs),
     [⟨name, ns, 0, false⟩])
  else
    (if dbg then .panic else .err EFI_INVALID_PARAMETER, [])

/-- The interpreted raw output of one `GetVariable` table call: the raw
status, the values left in `*data_size` and `*attributes`, and the bytes
the callee wrote into the data buffer. -/
structure GetVarCallOutput where
  status : Status
  data_size : Nat
  attributes : Nat
  written : List Nat
deriving DecidableEq

/-- A populated raw `GetVariable` function-pointer slot. -/
abbrev GetVarRaw := GetVarCallInput → GetVarCallOutput

/-- A populated raw `SetVariable` slot: name, namespace, attributes, data
map to the raw status. -/
abbrev SetVarRaw := List Nat → Guid → Nat → List Nat → Status

/-- The positional inputs of one raw `GetNextVariableName` call: the value
of `*name_size`, the contents of the name buffer, and the namespace. -/
structure NextVarCallInput where
  name_size : Nat
  name : List Nat
  nspace : Guid
deriving DecidableEq

/-- The raw output of one `GetNextVariableName` call: status, the value
left in `*name_size`, the code units written into the name buffer, and
the value left in `*vendor_guid`. -/
structure NextVarCallOutput where
  status : Status
  name_size : Nat
  written : List Nat
  nspace : Guid
deriving DecidableEq

/-- A populated raw `GetNextVariableName` slot; the call index argument
lets the model answer differently across the at-most-two calls. -/
abbrev NextVarRaw := Nat → NextVarCallInput → NextVarCallOutput

/-- The `efi::RuntimeServices` table: one nullable function-pointer slot
per service.  Field order follows the UEFI table: get_time, set_time,
get_wakeup_time, set_wakeup_time, get_variable, set_variable (here with
get_next_variable_name between them per the Rust accessors used),
query_variable_info. -/
structure RuntimeServicesTable where
  get_time : Option (Unit → Status × Nat × Nat)
  set_time : Option (Nat → Status)
  get_wakeup_time : Option (Unit → Status × Bool × Bool × Nat)
  set_wakeup_time : Option (Bool → Nat → Status)
  get_variable : Option GetVarRaw
  get_next_variable_name : Option NextVarRaw
  set_variable : Option SetVarRaw
  query_variable_info : Option (Nat → Status × Nat × Nat × Nat)

/-- A table whose every slot is null. -/
def nullTable : RuntimeServicesTable :=
  ⟨none, none, none, none, none, none, none, none⟩

/-- `StandardRuntimeServices::get_variable_unchecked`: null slot trips a
`debug_assert!` and then returns `GetVariableStatus::Error(NOT_FOUND)`;
otherwise the raw call is made and its status interpreted
(`BUFFER_TOO_SMALL`, then any other error, then success).  The second
component of the `ok` payload is the buffer contents after the call. -/
def StandardRuntimeServices.get_variable_unchecked (dbg : Bool)
    (tbl : RuntimeServicesTable) (name : List Nat) (ns : Guid)
    (data : Option (List Nat)) : Outcome (GetVariableStatus × List Nat) :=
  match tbl.get_variable with
  | none => if dbg then .panic else .ok (.Error EFI_NOT_FOUND, data.getD [])
  | some raw =>
    let data_size := (data.getD []).length
    let out := raw ⟨name, ns, data_size, data.isSome⟩
    let newBuf := match data with
      | some d => overwrite d out.written
      | none => []
    if out.status = EFI_BUFFER_TOO_SMALL then
      .ok (.BufferTooSmall out.data_size out.attributes, newBuf)
    else if Status.is_error out.status then
      .ok (.Error out.status, newBuf)
    else
      .ok (.Success out.data_size out.attributes, newBuf)

/-- `StandardRuntimeServices::set_variable_unchecked`: null slot trips a
`debug_assert!` and then returns `Err(NOT_FOUND)`; otherwise any error
status from the raw call is propagated and anything else is `Ok(())`. -/
def StandardRuntimeServices.set_variable_unchecked (dbg : Bool)
    (tbl : RuntimeServicesTable) (name : List Nat) (ns : Guid)
    (attributes : Nat) (data : List Nat) : Outcome Unit :=
  match tbl.set_variable with
  | none => if dbg then .panic else .err EFI_NOT_FOUND
  | some raw =>
    let st := raw name ns attributes data
    if Status.is_error st then .err st else .ok ()

/-- `StandardRuntimeServices::get_time_unchecked`: a null slot is an
unconditional `panic!`; only `SUCCESS` yields `Ok`. -/
def StandardRuntimeServices.get_time_unchecked (tbl : RuntimeServicesTable) :
    Outcome (Nat × Nat) :=
  match tbl.get_time with
  | none => .panic
  | some raw =>
    let r := raw ()
    if r.1 = EFI_SUCCESS then .ok (r.2.1, r.2.2) else .err r.1

/-- `StandardRuntimeServices::set_time_unchecked`: a null slot is an
unconditional `panic!`. -/
def StandardRuntimeServices.set_time_unchecked (tbl : RuntimeServicesTable)
    (time : Nat) : Outcome Unit :=
  match tbl.set_time with
  | none => .panic
  | some raw =>
    let st := raw time
    if st = EFI_SUCCESS then .ok () else .err st

/-- `StandardRuntimeServices::get_wakeup_time_unchecked`: a null slot is
an unconditional `panic!`. -/
def StandardRuntimeServices.get_wakeup_time_unchecked
    (tbl : RuntimeServicesTable) : Outcome (Bool × Bool × Nat) :=
  match tbl.get_wakeup_time with
  | none => .panic
  | some raw =>
    let r := raw ()
    if r.1 = EFI_SUCCESS then .ok r.2 else .err r.1

/-- `StandardRuntimeServices::set_wakeup_time_unchecked`: a null slot is
an unconditional `panic!`. -/
def StandardRuntimeServices.set_wakeup_time_unchecked
    (tbl : RuntimeServicesTable) (enable : Bool) (time : Nat) : Outcome Unit :=
  match tbl.set_wakeup_time with
  | none => .panic
  | some raw =>
    let st := raw enable time
    if st = EFI_SUCCESS then .ok () else .err st

/-- `StandardRuntimeServices::query_variable_info`: null slot trips a
`debug_assert!` and then returns `Err(NOT_FOUND)`. -/
def StandardRuntimeServices.query_variable_info (dbg : Bool)
    (tbl : RuntimeServicesTable) (attributes : Nat) :
    Outcome (Nat × Nat × Nat) :=
  match tbl.query_variable_info with
  | none => if dbg then .panic else .err EFI_NOT_FOUND
  | some raw =>
    let r := raw attributes
    if Status.is_error r.1 then .err r.1 else .ok r.2

/-- The seeding step of `get_next_variable_name_unchecked`: grow the
`next_name` buffer to at least `prev_name.len()` and copy `prev_name`
over its leading code units (`clone_from_slice`). -/
def seedNext (prev_name buf : List Nat) : List Nat :=
  let buf0 := if buf.length < prev_name.length
    then resizeFill buf prev_name.length 0 else buf
  prev_name ++ buf0.drop prev_name.length

/-- The `loop` inside `get_next_variable_name_unchecked`.  One raw call
per iteration; on a first-try `BUFFER_TOO_SMALL` the reported size must
be strictly larger than the buffer (`assert!`, unconditional in every
build), then the buffer is resized and re-seeded with `prev_name` and
the namespace restored before retrying with `first_try = false`. -/
def nextNameGo (raw : NextVarRaw) (prev_name : List Nat) (prev_ns : Guid)
    (first_try : Bool) (next_name_size : Nat) (next_name : List Nat)
    (next_ns : Guid) (idx : Nat) :
    Outcome (List Nat × Guid) × List NextVarCallInput :=
  let input : NextVarCallInput := ⟨next_name_size, next_name, next_ns⟩
  let out := raw idx input
  let next_name1 := overwrite next_name out.written
  let next_ns1 := out.nspace
  let size1 := out.name_size
  if h : out.status = EFI_BUFFER_TOO_SMALL ∧ first_try = true then
    if next_name1.length < size1 then
      let next_name2 := resizeFill next_name1 size1 0
      let next_name3 := prev_name ++ next_name2.drop prev_name.length
      let r := nextNameGo raw prev_name prev_ns false size1 next_name3
        prev_ns (idx + 1)
      (r.1, input :: r.2)
    else
      (.panic, [input])
  else if Status.is_error out.status then
    (.err out.status, [input])
  else
    (.ok (next_name1, next_ns1), [input])
termination_by cond first_try 1 0
decreasing_by simp [h.2]

/-- `StandardRuntimeServices::get_next_variable_name_unchecked`: null
slot trips a `debug_assert!` and then returns `Err(NOT_FOUND)`;
otherwise the previous name is copied into the scratch buffer and the
namespace set to the previous namespace before entering the loop.  The
`ok` payload is the caller-visible `(next_name, next_namespace)` pair. -/
def StandardRuntimeServices.get_next_variable_name_unchecked (dbg : Bool)
    (slot : Option NextVarRaw) (prev_name : List Nat) (prev_ns : Guid)
    (next_name : List Nat) (next_ns : Guid) :
    Outcome (List Nat × Guid) × List NextVarCallInput :=
  match slot with
  | none => (if dbg then .panic else .err EFI_NOT_FOUND, [])
  | some raw =>
    let seeded := seedNext prev_name next_name
    nextNameGo raw prev_name prev_ns true seeded.length seeded prev_ns 0

/-- `RuntimeServices::get_next_variable_name` (trait provided method):
reject a zero-length previous name (`debug_assert!` first), then run the
unchecked negotiation starting from an empty scratch buffer and the
all-zero namespace. -/
def RuntimeServices.get_next_variable_name (dbg : Bool)
    (slot : Option NextVarRaw) (prev_name : List Nat) (prev_ns : Guid) :
    Outcome (List Nat × Guid) × List NextVarCallInput :=
  if prev_name.length = 0 then
    (if dbg then .panic else .err EFI_INVALID_PARAMETER, [])
  else
    StandardRuntimeServices.get_next_variable_name_unchecked dbg slot
      prev_name prev_ns [] 0

/-- `StandardRuntimeServices::new_uninit`: the table handle starts
null.  The handle state is `Option Nat`, a table reference abstracted to
its address identity. -/
def StandardRuntimeServices.new_uninit : Option Nat := none

/-- `StandardRuntimeServices::initialize` (spelled `init` here because
`initialize` is a Lean keyword): store the reference only when the
handle is null; otherwise leave it untouched and trip a `debug_assert!`.
Returns the new handle state and whether the assertion fired (a panic in
debug builds, a silent no-op in release builds). -/
def StandardRuntimeServices.init (dbg : Bool) (state : Option Nat)
    (tbl : Nat) : Option Nat × Bool :=
  match state with
  | none => (some tbl, false)
  | some t => (some t, dbg)

/-- `StandardRuntimeServices::efi_runtime_services`: resolve the bound
table reference, panicking when the handle is still null. -/
def StandardRuntimeServices.efi_runtime_services (state : Option Nat) :
    Outcome Nat :=
  match state with
  | none => .panic
  | some t => .ok t

theorem overwrite_length (old new : List Nat) :
    (overwrite old new).length = old.length := by
  simp [overwrite]
  omega

theorem resizeFill_length (l : List Nat) (n v : Nat) :
    (resizeFill l n v).length = n := by
  simp only [resizeFill]
  split <;> simp <;> omega

theorem getVarLoop_trace_false {T : Type} (unchecked : GetOracle)
    (tryFrom : List Nat → Option T) (name : List Nat) (ns : Guid)
    (data : List Nat) (idx : Nat) :
    (RuntimeServices.getVarLoop unchecked tryFrom name ns false data idx).2
      = [⟨name, ns, data.length, data.length != 0⟩] := by
  rw [RuntimeServices.getVarLoop]
  split
  · split <;> rfl
  · simp
  · rfl

theorem getVarLoop_trace_length_le {T : Type} (unchecked : GetOracle)
    (tryFrom : List Nat → Option T) (name : List Nat) (ns : Guid)
    (first_attempt : Bool) (data : List Nat) (idx : Nat) :
    (RuntimeServices.getVarLoop unchecked tryFrom name ns first_attempt data idx).2.length
      ≤ cond first_attempt 2 1 := by
  cases first_attempt
  · rw [getVarLoop_trace_false]
    simp
  · rw [RuntimeServices.getVarLoop]
    split
    · split <;> simp
    · rename_i ds _
      rw [dif_pos rfl]
      simp only [List.length_cons, getVarLoop_trace_false]
      simp
    · simp

theorem getVarLoop_trace_length_pos {T : Type} (unchecked : GetOracle)
    (tryFrom : List Nat → Option T) (name : List Nat) (ns : Guid)
    (first_attempt : Bool) (data : List Nat) (idx : Nat) :
    1 ≤ (RuntimeServices.getVarLoop unchecked tryFrom name ns first_attempt data idx).2.length := by
  rw [RuntimeServices.getVarLoop]
  split
  · split <;> simp
  · split <;> simp
  · simp

theorem nextNameGo_trace_false (raw : NextVarRaw) (prev_name : List Nat)
    (prev_ns : Guid) (sz : Nat) (buf : List Nat) (ns : Guid) (idx : Nat) :
    (nextNameGo raw prev_name prev_ns false sz buf ns idx).2 = [⟨sz, buf, ns⟩] := by
  rw [nextNameGo]
  simp only [Bool.false_eq_true, and_false, dite_false]
  split <;> rfl

theorem getVarLoop_false_bts {T : Type} (unchecked : GetOracle)
    (tryFrom : List Nat → Option T) (name : List Nat) (ns : Guid)
    (req attr : Nat → Nat) (w : List Nat)
    (h : ∀ i n g b, unchecked i n g b = (.BufferTooSmall (req i) (attr i), w))
    (data : List Nat) (idx : Nat) :
    RuntimeServices.getVarLoop unchecked tryFrom name ns false data idx
      = (.err EFI_BUFFER_TOO_SMALL, [⟨name, ns, data.length, data.length != 0⟩]) := by
  rw [RuntimeServices.getVarLoop]
  simp [h]

/-- C1: for every variable read via `get_variable` (any name, namespace
and optional size hint, over any `get_variable_unchecked` collaborator),
at most two underlying raw get-variable calls are made; and when the
collaborator reports `BufferTooSmall` on every call, the result is a
buffer-too-small error after exactly two calls, the second of which
carries a buffer resized to the size reported by the first call. -/
theorem get_variable_at_most_two_raw_calls {T : Type} (dbg : Bool)
    (unchecked : GetOracle) (tryFrom : List Nat → Option T)
    (name : List Nat) (ns : Guid) (size_hint : Option Nat) :
    (RuntimeServices.get_variable dbg unchecked tryFrom name ns size_hint).2.length ≤ 2 ∧
    (∀ (req attr : Nat → Nat) (w : List Nat),
      (∀ i n g b, unchecked i n g b = (.BufferTooSmall (req i) (attr i), w)) →
      name.contains 0 = true →
      (RuntimeServices.get_variable dbg unchecked tryFrom name ns size_hint).1
          = .err EFI_BUFFER_TOO_SMALL ∧
      (RuntimeServices.get_variable dbg unchecked tryFrom name ns size_hint).2.length = 2 ∧
      ((RuntimeServices.get_variable dbg unchecked tryFrom name ns size_hint).2.getLast?).map
          GetVarCallInput.data_size = some (req 0)) := by
  constructor
  · rw [RuntimeServices.get_variable.eq_def]
    split
    · exact getVarLoop_trace_length_le unchecked tryFrom name ns true _ 0
    · simp
  · intro req attr w h hc
    rw [RuntimeServices.get_variable.eq_def, if_pos hc]
    rw [RuntimeServices.getVarLoop]
    simp only [h]
    rw [getVarLoop_false_bts unchecked tryFrom name ns req attr w h]
    simp [resizeFill_length]

/-- Witness for C1: a collaborator that always reports `BufferTooSmall`
(required size `4` on the first call) makes `get_variable` fail with
`BUFFER_TOO_SMALL` after exactly two calls, the second with a buffer of
the reported size `4`. -/
theorem get_variable_at_most_two_raw_calls_witness :
    (RuntimeServices.get_variable false
        (fun i _ _ _ => (GetVariableStatus.BufferTooSmall (i + 4) 7, ([] : List Nat)))
        (fun l => some l) [0] 0 none).1 = Outcome.err EFI_BUFFER_TOO_SMALL ∧
    (RuntimeServices.get_variable false
        (fun i _ _ _ => (GetVariableStatus.BufferTooSmall (i + 4) 7, ([] : List Nat)))
        (fun l => some l) [0] 0 none).2.length = 2 ∧
    ((RuntimeServices.get_variable false
        (fun i _ _ _ => (GetVariableStatus.BufferTooSmall (i + 4) 7, ([] : List Nat)))
        (fun l => some l) [0] 0 none).2.getLast?).map GetVarCallInput.data_size
      = some 4 :=
  (get_variable_at_most_two_raw_calls false
      (fun i _ _ _ => (GetVariableStatus.BufferTooSmall (i + 4) 7, ([] : List Nat)))
      (fun l => some l) [0] 0 none).2
    (fun i => i + 4) (fun _ => 7) [] (fun _ _ _ _ => rfl) rfl

/-- C10: calling `get_variable` with size hint `Some(0)` is observably
identical to calling it with no hint: both start from an empty buffer,
so the whole computation (outcome and raw-call trace) is equal. -/
theorem get_variable_zero_size_hint_eq_none {T : Type} (dbg : Bool)
    (unchecked : GetOracle) (tryFrom : List Nat → Option T)
    (name : List Nat) (ns : Guid) :
    RuntimeServices.get_variable dbg unchecked tryFrom name ns (some 0)
      = RuntimeServices.get_variable dbg unchecked tryFrom name ns none := rfl

/-- Counterexample for C3: the name `[0, 1]` does not end in a zero
terminator, yet it passes validation (it contains a zero) and
`set_variable` performs one underlying table call and succeeds — the
claim that every name not ending in a zero terminator is rejected with
zero table calls is false. -/
theorem terminator_validation_counterexample :
    (([0, 1] : List Nat).getLast? ≠ some 0) ∧
    (RuntimeServices.set_variable false (fun _ _ _ _ => Outcome.ok ()) [0, 1] 0 0 []).2 = 1 ∧
    (RuntimeServices.set_variable false (fun _ _ _ _ => Outcome.ok ()) [0, 1] 0 0 []).1
      = Outcome.ok () :=
  ⟨by decide, rfl, rfl⟩

/-- C3 amended: the checked entry points `get_variable`, `set_variable`
and `get_variable_size_and_attributes` validate that the name contains a
zero code unit somewhere (not that it ends in one): a name with no zero
is rejected before any table call (invalid-parameter error in release
builds, assertion in debug builds, zero table calls either way), and a
name containing a zero passes validation and reaches the table. -/
theorem name_validation_requires_zero_anywhere {T : Type} (dbg : Bool)
    (go : GetOracle) (so : SetOracle) (tryFrom : List Nat → Option T)
    (name : List Nat) (ns : Guid) (attrs : Nat) (bytes : List Nat)
    (size_hint : Option Nat) :
    (name.contains 0 = false →
      RuntimeServices.set_variable dbg so name ns attrs bytes
          = ((if dbg then .panic else .err EFI_INVALID_PARAMETER), 0) ∧
      RuntimeServices.get_variable dbg go tryFrom name ns size_hint
          = ((if dbg then .panic else .err EFI_INVALID_PARAMETER), []) ∧
      RuntimeServices.get_variable_size_and_attributes dbg go name ns
          = ((if dbg then .panic else .err EFI_INVALID_PARAMETER), [])) ∧
    (name.contains 0 = true →
      (RuntimeServices.set_variable dbg so name ns attrs bytes).2 = 1 ∧
      1 ≤ (RuntimeServices.get_variable dbg go tryFrom name ns size_hint).2.length ∧
      (RuntimeServices.get_variable_size_and_attributes dbg go name ns).2.length = 1) := by
  constructor
  · intro h
    have h0 : (0 : Nat) ∉ name := by simpa using h
    refine ⟨?_, ?_, ?_⟩ <;>
      simp [RuntimeServices.set_variable, RuntimeServices.get_variable.eq_def,
        RuntimeServices.get_variable_size_and_attributes, h0]
  · intro h
    have h0 : (0 : Nat) ∈ name := by simpa using h
    refine ⟨?_, ?_, ?_⟩
    · simp [RuntimeServices.set_variable, h0]
    · rw [RuntimeServices.get_variable.eq_def, if_pos h]
      exact getVarLoop_trace_length_pos go tryFrom name ns true _ 0
    · simp [RuntimeServices.get_variable_size_and_attributes, h0]

/-- Witness for C3 amended: the zero-free name `[1, 2]` is rejected with
an invalid-parameter error and zero calls, while `[7, 0]` (zero present)
reaches the table with one call. -/
theorem name_validation_requires_zero_anywhere_witness :
    RuntimeServices.set_variable false (fun _ _ _ _ => Outcome.ok ()) [1, 2] 0 0 []
        = (Outcome.err EFI_INVALID_PARAMETER, 0) ∧
    (RuntimeServices.set_variable false (fun _ _ _ _ => Outcome.ok ()) [7, 0] 0 0 []).2 = 1 :=
  ⟨((name_validation_requires_zero_anywhere false
        (fun _ _ _ _ => (GetVariableStatus.Error 0, []))
        (fun _ _ _ _ => Outcome.ok ()) (fun l => some (l : List Nat)) [1, 2] 0 0 [] none).1 rfl).1,
   ((name_validation_requires_zero_anywhere false
        (fun _ _ _ _ => (GetVariableStatus.Error 0, []))
        (fun _ _ _ _ => Outcome.ok ()) (fun l => some (l : List Nat)) [7, 0] 0 0 [] none).2 rfl).1⟩

/-- Counterexample for C7: with size hint `Some(5)` and a stored value of
4 bytes, the raw call succeeds reporting `data_size = 4`, but the typed
conversion receives the full 5-byte buffer `[1, 2, 3, 4, 0]`, not the
buffer truncated to the reported size — the claim that the decode input
is truncated to the reported data size is false. -/
theorem get_variable_decode_untruncated_counterexample :
    RuntimeServices.get_variable false
        (fun _ _ _ _ => (GetVariableStatus.Success 4 9, [1, 2, 3, 4]))
        (fun l => some l) [0] 0 (some 5)
      = (Outcome.ok ([1, 2, 3, 4, 0], 9), [⟨[0], 0, 5, true⟩]) ∧
    ([1, 2, 3, 4, 0] : List Nat) ≠ [1, 2, 3, 4] := by
  constructor
  · show RuntimeServices.getVarLoop
        (fun _ _ _ _ => (GetVariableStatus.Success 4 9, ([1, 2, 3, 4] : List Nat)))
        (fun l => some l) [0] 0 true (resizeFill [] 5 0) 0 = _
    rw [RuntimeServices.getVarLoop]
    decide
  · decide

theorem getVarLoop_success {T : Type} (unchecked : GetOracle)
    (tryFrom : List Nat → Option T) (name : List Nat) (ns : Guid)
    (fa : Bool) (data : List Nat) (idx : Nat) (ds attrs : Nat) (w : List Nat)
    (h : unchecked idx name ns (if data.length = 0 then none else some data)
        = (.Success ds attrs, w)) :
    RuntimeServices.getVarLoop unchecked tryFrom name ns fa data idx
      = ((match tryFrom (if data.length = 0 then data else overwrite data w) with
          | some d => Outcome.ok (d, attrs)
          | none => Outcome.err EFI_INVALID_PARAMETER),
         [⟨name, ns, data.length, data.length != 0⟩]) := by
  rw [RuntimeServices.getVarLoop]
  simp only [h]
  by_cases h0 : data = []
  · simp [h0]
    split <;> simp_all
  · simp [h0, List.length_eq_zero]
    split <;> simp_all

theorem getVarLoop_true_bts {T : Type} (unchecked : GetOracle)
    (tryFrom : List Nat → Option T) (name : List Nat) (ns : Guid)
    (data : List Nat) (idx : Nat) (ds1 a1 : Nat) (w1 : List Nat)
    (h1 : unchecked idx name ns (if data.length = 0 then none else some data)
        = (.BufferTooSmall ds1 a1, w1)) :
    RuntimeServices.getVarLoop unchecked tryFrom name ns true data idx
      = ((RuntimeServices.getVarLoop unchecked tryFrom name ns false
            (resizeFill (if data.length = 0 then data else overwrite data w1) ds1 10)
            (idx + 1)).1,
         ⟨name, ns, data.length, data.length != 0⟩ ::
           (RuntimeServices.getVarLoop unchecked tryFrom name ns false
             (resizeFill (if data.length = 0 then data else overwrite data w1) ds1 10)
             (idx + 1)).2) := by
  rw [RuntimeServices.getVarLoop]
  simp only [h1]
  by_cases h0 : data = []
  · simp [h0]
  · simp [h0, List.length_eq_zero]

/-- C7 amended: when a raw call returns `Success`, `get_variable` feeds
the typed conversion the entire current buffer (the hint-sized buffer
when the first call succeeds, or the buffer resized to the first call's
reported size when the retry succeeds), after the callee's in-place
writes and ignoring the data size reported by the succeeding call; it
returns the decoded value with the reported attributes, and maps a
conversion failure to an invalid-parameter error. -/
theorem get_variable_success_decode {T : Type} (dbg : Bool)
    (unchecked : GetOracle) (tryFrom : List Nat → Option T)
    (name : List Nat) (ns : Guid) (size_hint : Option Nat)
    (data0 : List Nat) :
    name.contains 0 = true →
    data0 = (match size_hint with | some n => resizeFill [] n 0 | none => []) →
    ((∀ ds attrs w,
       unchecked 0 name ns (if data0.length = 0 then none else some data0)
           = (.Success ds attrs, w) →
       RuntimeServices.get_variable dbg unchecked tryFrom name ns size_hint
         = ((match tryFrom (if data0.length = 0 then data0 else overwrite data0 w) with
             | some d => Outcome.ok (d, attrs)
             | none => Outcome.err EFI_INVALID_PARAMETER),
            [⟨name, ns, data0.length, data0.length != 0⟩])) ∧
     (∀ ds1 a1 w1 data2 ds2 a2 w2,
       unchecked 0 name ns (if data0.length = 0 then none else some data0)
           = (.BufferTooSmall ds1 a1, w1) →
       data2 = resizeFill (if data0.length = 0 then data0 else overwrite data0 w1) ds1 10 →
       unchecked 1 name ns (if data2.length = 0 then none else some data2)
           = (.Success ds2 a2, w2) →
       RuntimeServices.get_variable dbg unchecked tryFrom name ns size_hint
         = ((match tryFrom (if data2.length = 0 then data2 else overwrite data2 w2) with
             | some d => Outcome.ok (d, a2)
             | none => Outcome.err EFI_INVALID_PARAMETER),
            [⟨name, ns, data0.length, data0.length != 0⟩,
             ⟨name, ns, data2.length, data2.length != 0⟩]))) := by
  intro hc hd
  constructor
  · intro ds attrs w h
    rw [RuntimeServices.get_variable.eq_def, if_pos hc]
    cases size_hint with
    | none =>
      dsimp only at hd ⊢
      subst hd
      exact getVarLoop_success unchecked tryFrom name ns true [] 0 ds attrs w h
    | some n =>
      dsimp only at hd ⊢
      subst hd
      exact getVarLoop_success unchecked tryFrom name ns true (resizeFill [] n 0) 0
        ds attrs w h
  · intro ds1 a1 w1 data2 ds2 a2 w2 h1 hd2 h2
    rw [RuntimeServices.get_variable.eq_def, if_pos hc]
    cases size_hint with
    | none =>
      dsimp only at hd ⊢
      subst hd
      subst hd2
      rw [getVarLoop_true_bts unchecked tryFrom name ns [] 0 ds1 a1 w1 h1]
      rw [getVarLoop_success unchecked tryFrom name ns false _ 1 ds2 a2 w2 h2]
    | some n =>
      dsimp only at hd ⊢
      subst hd
      subst hd2
      rw [getVarLoop_true_bts unchecked tryFrom name ns (resizeFill [] n 0) 0 ds1 a1 w1 h1]
      rw [getVarLoop_success unchecked tryFrom name ns false _ 1 ds2 a2 w2 h2]

/-- Witness for C7 amended, covering both success paths.  With hint
`Some(2)` the first call succeeds after writing one byte and the decode
input is the full two-byte buffer `[8, 0]`.  With no hint the first call
reports `BufferTooSmall(3)`, the buffer is resized to `[10, 10, 10]`,
the retry succeeds after writing two bytes, and the decode input is the
full resized buffer `[1, 2, 10]` rather than its two-byte prefix. -/
theorem get_variable_success_decode_witness :
    RuntimeServices.get_variable false
        (fun _ _ _ _ => (GetVariableStatus.Success 2 3, [8]))
        (fun l => some l) [0] 0 (some 2)
      = (Outcome.ok ([8, 0], 3), [⟨[0], 0, 2, true⟩]) ∧
    RuntimeServices.get_variable false
        (fun i _ _ _ => if i = 0 then (GetVariableStatus.BufferTooSmall 3 0, [])
          else (GetVariableStatus.Success 2 5, [1, 2]))
        (fun l => some l) [0] 0 none
      = (Outcome.ok ([1, 2, 10], 5), [⟨[0], 0, 0, false⟩, ⟨[0], 0, 3, true⟩]) :=
  ⟨((get_variable_success_decode false
      (fun _ _ _ _ => (GetVariableStatus.Success 2 3, [8]))
      (fun l => some l) [0] 0 (some 2) (resizeFill [] 2 0) rfl rfl).1 2 3 [8] rfl),
   ((get_variable_success_decode false
      (fun i _ _ _ => if i = 0 then (GetVariableStatus.BufferTooSmall 3 0, [])
        else (GetVariableStatus.Success 2 5, [1, 2]))
      (fun l => some l) [0] 0 none [] rfl rfl).2 3 0 []
     (resizeFill (if ([] : List Nat).length = 0 then [] else overwrite [] []) 3 10)
     2 5 [1, 2] rfl rfl rfl)⟩

/-- Counterexample for C6: in a release build (`dbg = false`) a callee
answering the zero-length probe with `Success` makes
`get_variable_size_and_attributes` return `Ok((7, 42))` — so a response
other than `BufferTooSmall` can also yield the `Ok` result, and the
spurious `Success` is not treated as a failure. -/
theorem size_probe_success_returns_ok_counterexample :
    RuntimeServices.get_variable_size_and_attributes false
        (fun _ _ _ _ => (GetVariableStatus.Success 7 42, [])) [0] 0
      = (Outcome.ok (7, 42), [⟨[0], 0, 0, false⟩]) := rfl

/-- C6 amended: `get_variable_size_and_attributes` always issues a single
zero-length probe with no data buffer; `BufferTooSmall` yields
`Ok((size, attributes))`, an error status is propagated, and a spurious
`Success` trips a `debug_assert!` — a panic in debug builds — but in
release builds still returns `Ok((size, attributes))`. -/
theorem get_variable_size_zero_length_probe (dbg : Bool)
    (unchecked : GetOracle) (name : List Nat) (ns : Guid) :
    name.contains 0 = true →
    ((RuntimeServices.get_variable_size_and_attributes dbg unchecked name ns).2
        = [⟨name, ns, 0, false⟩] ∧
     (∀ ds attrs w, unchecked 0 name ns none = (.BufferTooSmall ds attrs, w) →
       (RuntimeServices.get_variable_size_and_attributes dbg unchecked name ns).1
         = .ok (ds, attrs)) ∧
     (∀ ds attrs w, unchecked 0 name ns none = (.Success ds attrs, w) →
       (RuntimeServices.get_variable_size_and_attributes dbg unchecked name ns).1
         = (if dbg then .panic else .ok (ds, attrs))) ∧
     (∀ e w, unchecked 0 name ns none = (.Error e, w) →
       (RuntimeServices.get_variable_size_and_attributes dbg unchecked name ns).1
         = .err e)) := by
  intro hc
  have h0 : (0 : Nat) ∈ name := by simpa using hc
  refine ⟨?_, ?_, ?_, ?_⟩
  · simp [RuntimeServices.get_variable_size_and_attributes, h0]
  · intro ds attrs w h
    simp [RuntimeServices.get_variable_size_and_attributes, h0, h]
  · intro ds attrs w h
    simp [RuntimeServices.get_variable_size_and_attributes, h0, h]
  · intro e w h
    simp [RuntimeServices.get_variable_size_and_attributes, h0, h]

/-- Witness for C6 amended: a `BufferTooSmall(6, 13)` answer to the
zero-length probe yields `Ok((6, 13))`, and the probe trace is the single
buffer-less call. -/
theorem get_variable_size_zero_length_probe_witness :
    (RuntimeServices.get_variable_size_and_attributes false
        (fun _ _ _ _ => (GetVariableStatus.BufferTooSmall 6 13, ([] : List Nat))) [0] 0).2
      = [⟨[0], 0, 0, false⟩] ∧
    (RuntimeServices.get_variable_size_and_attributes false
        (fun _ _ _ _ => (GetVariableStatus.BufferTooSmall 6 13, ([] : List Nat))) [0] 0).1
      = Outcome.ok (6, 13) :=
  ⟨(get_variable_size_zero_length_probe false
      (fun _ _ _ _ => (GetVariableStatus.BufferTooSmall 6 13, ([] : List Nat))) [0] 0 rfl).1,
   ((get_variable_size_zero_length_probe false
      (fun _ _ _ _ => (GetVariableStatus.BufferTooSmall 6 13, ([] : List Nat))) [0] 0 rfl).2.1
      6 13 [] rfl)⟩

/-- Counterexample for C2: with a null `GetVariable` slot and debug
assertions off, `get_variable_unchecked` completes by returning a
`NOT_FOUND` error status to the caller instead of aborting, and likewise
`set_variable_unchecked` returns `Err(NOT_FOUND)` — so a null slot in
the variable services is a recoverable returned error, not a panic. -/
theorem null_variable_slot_returns_error_counterexample :
    StandardRuntimeServices.get_variable_unchecked false nullTable [0] 0 none
      = Outcome.ok (GetVariableStatus.Error EFI_NOT_FOUND, []) ∧
    StandardRuntimeServices.get_variable_unchecked false nullTable [0] 0 none
      ≠ Outcome.panic ∧
    StandardRuntimeServices.set_variable_unchecked false nullTable [0] 0 0 []
      = Outcome.err EFI_NOT_FOUND :=
  ⟨rfl, by decide, rfl⟩

/-- C2 amended: a null function-pointer slot is fatal (unconditional
panic) only for the time and wakeup services; for the variable services
(`get_variable_unchecked`, `set_variable_unchecked`,
`get_next_variable_name_unchecked`, `query_variable_info`) it trips a
`debug_assert!` — panicking only in debug builds — and in release builds
completes by returning a `NOT_FOUND` error status. -/
theorem null_slot_fatal_only_for_time_services (dbg : Bool)
    (tbl : RuntimeServicesTable) (name : List Nat) (ns : Guid)
    (data : Option (List Nat)) (attrs : Nat) (bytes : List Nat)
    (prev_name : List Nat) (prev_ns : Guid) (next_name : List Nat)
    (next_ns : Guid) (enable : Bool) (time : Nat) :
    (tbl.get_variable = none →
      StandardRuntimeServices.get_variable_unchecked dbg tbl name ns data
        = (if dbg then .panic else .ok (.Error EFI_NOT_FOUND, data.getD []))) ∧
    (tbl.set_variable = none →
      StandardRuntimeServices.set_variable_unchecked dbg tbl name ns attrs bytes
        = (if dbg then .panic else .err EFI_NOT_FOUND)) ∧
    (tbl.get_next_variable_name = none →
      StandardRuntimeServices.get_next_variable_name_unchecked dbg
          tbl.get_next_variable_name prev_name prev_ns next_name next_ns
        = ((if dbg then .panic else .err EFI_NOT_FOUND), [])) ∧
    (tbl.query_variable_info = none →
      StandardRuntimeServices.query_variable_info dbg tbl attrs
        = (if dbg then .panic else .err EFI_NOT_FOUND)) ∧
    (tbl.get_time = none →
      StandardRuntimeServices.get_time_unchecked tbl = .panic) ∧
    (tbl.set_time = none →
      StandardRuntimeServices.set_time_unchecked tbl time = .panic) ∧
    (tbl.get_wakeup_time = none →
      StandardRuntimeServices.get_wakeup_time_unchecked tbl = .panic) ∧
    (tbl.set_wakeup_time = none →
      StandardRuntimeServices.set_wakeup_time_unchecked tbl enable time = .panic) := by
  refine ⟨?_, ?_, ?_, ?_, ?_, ?_, ?_, ?_⟩ <;> intro h <;>
    simp [StandardRuntimeServices.get_variable_unchecked,
      StandardRuntimeServices.set_variable_unchecked,
      StandardRuntimeServices.get_next_variable_name_unchecked,
      StandardRuntimeServices.query_variable_info,
      StandardRuntimeServices.get_time_unchecked,
      StandardRuntimeServices.set_time_unchecked,
      StandardRuntimeServices.get_wakeup_time_unchecked,
      StandardRuntimeServices.set_wakeup_time_unchecked, h]

/-- Witness for C2 amended: on the all-null table with debug assertions
off, the variable read returns the `NOT_FOUND` error while the time read
panics. -/
theorem null_slot_fatal_only_for_time_services_witness :
    StandardRuntimeServices.get_variable_unchecked false nullTable [1] 5 none
      = Outcome.ok (GetVariableStatus.Error EFI_NOT_FOUND, []) ∧
    StandardRuntimeServices.get_time_unchecked nullTable = Outcome.panic :=
  ⟨(null_slot_fatal_only_for_time_services false nullTable [1] 5 none 0 [] [] 0 [] 0 false 0).1 rfl,
   (null_slot_fatal_only_for_time_services false nullTable [1] 5 none 0 [] [] 0 [] 0 false 0).2.2.2.2.1 rfl⟩

/-- C4: the table handle is write-once.  Binding a null handle stores the
reference without asserting; a second bind attempt leaves the original
binding in place (its only effect is a debug assertion, i.e. a panic in
debug builds and a no-op in release builds), and resolving afterwards
still returns the originally bound table — the state only ever moves
from null to bound, never from one bound table to another. -/
theorem table_binding_write_once (dbg : Bool) (t t1 t2 : Nat) :
    StandardRuntimeServices.init dbg StandardRuntimeServices.new_uninit t
        = (some t, false) ∧
    (StandardRuntimeServices.init dbg (some t1) t2).1 = some t1 ∧
    (StandardRuntimeServices.init dbg (some t1) t2).2 = dbg ∧
    StandardRuntimeServices.efi_runtime_services
        (StandardRuntimeServices.init dbg (some t1) t2).1 = .ok t1 ∧
    StandardRuntimeServices.efi_runtime_services
        StandardRuntimeServices.new_uninit = .panic :=
  ⟨rfl, rfl, rfl, rfl, rfl⟩

theorem seedNext_take (prev_name buf : List Nat) :
    (seedNext prev_name buf).take prev_name.length = prev_name := by
  simp only [seedNext]
  exact List.take_left _ _

theorem seedNext_nil (prev_name : List Nat) : seedNext prev_name [] = prev_name := by
  simp only [seedNext, resizeFill]
  split
  · split
    · simp_all
    · simp [List.drop_replicate]
  · simp_all

/-- C5: in `get_next_variable_name_unchecked` (with a populated slot),
every raw call — the first attempt as well as the retry after a
`BufferTooSmall` resize — receives a buffer whose leading code units are
exactly the previous name and a namespace equal to the previous
namespace. -/
theorem get_next_reseeds_prev_before_every_call (dbg : Bool)
    (raw : NextVarRaw) (prev_name : List Nat) (prev_ns : Guid)
    (next_name : List Nat) (next_ns : Guid) :
    ∀ inp ∈ (StandardRuntimeServices.get_next_variable_name_unchecked dbg
        (some raw) prev_name prev_ns next_name next_ns).2,
      inp.name.take prev_name.length = prev_name ∧ inp.nspace = prev_ns := by
  intro inp hmem
  have hred : StandardRuntimeServices.get_next_variable_name_unchecked dbg
      (some raw) prev_name prev_ns next_name next_ns
      = nextNameGo raw prev_name prev_ns true (seedNext prev_name next_name).length
          (seedNext prev_name next_name) prev_ns 0 := rfl
  rw [hred, nextNameGo] at hmem
  split at hmem
  · split at hmem
    · simp only [nextNameGo_trace_false, List.mem_cons, List.mem_singleton,
        List.not_mem_nil, or_false] at hmem
      rcases hmem with h | h
      · subst h
        exact ⟨seedNext_take prev_name next_name, rfl⟩
      · subst h
        exact ⟨List.take_left _ _, rfl⟩
    · simp only [List.mem_singleton] at hmem
      subst hmem
      exact ⟨seedNext_take prev_name next_name, rfl⟩
  · split at hmem <;>
      (simp only [List.mem_singleton] at hmem
       subst hmem
       exact ⟨seedNext_take prev_name next_name, rfl⟩)

/-- Witness for C5: with a platform answering `BUFFER_TOO_SMALL` (size 4)
then success, the second (retry) call input carries the previous name
`[5, 0]` in its leading code units and the previous namespace `9`. -/
theorem get_next_reseeds_prev_before_every_call_witness :
    (⟨4, [5, 0, 0, 0], 9⟩ : NextVarCallInput).name.take 2 = [5, 0] ∧
    (⟨4, [5, 0, 0, 0], 9⟩ : NextVarCallInput).nspace = 9 := by
  have hm : (⟨4, [5, 0, 0, 0], 9⟩ : NextVarCallInput)
      ∈ (StandardRuntimeServices.get_next_variable_name_unchecked false
          (some (fun i inp => if i = 0 then ⟨EFI_BUFFER_TOO_SMALL, 4, [], inp.nspace⟩
            else ⟨EFI_SUCCESS, 4, [7, 0, 0, 0], inp.nspace⟩))
          [5, 0] 9 [] 0).2 := by
    show _ ∈ (nextNameGo
        (fun i inp => if i = 0 then ⟨EFI_BUFFER_TOO_SMALL, 4, [], inp.nspace⟩
          else ⟨EFI_SUCCESS, 4, [7, 0, 0, 0], inp.nspace⟩)
        [5, 0] 9 true (seedNext [5, 0] []).length (seedNext [5, 0] []) 9 0).2
    rw [nextNameGo]
    simp only [nextNameGo_trace_false]
    decide
  exact get_next_reseeds_prev_before_every_call false
    (fun i inp => if i = 0 then ⟨EFI_BUFFER_TOO_SMALL, 4, [], inp.nspace⟩
      else ⟨EFI_SUCCESS, 4, [7, 0, 0, 0], inp.nspace⟩)
    [5, 0] 9 [] 0 ⟨4, [5, 0, 0, 0], 9⟩ hm

/-- C8: `get_next_variable_name` rejects a zero-length previous name
before any table call (invalid-parameter error in release builds,
assertion in debug builds, empty trace), but performs no terminator
pre-validation: any non-empty previous name — zero-terminated or not —
is passed to the platform call, and a platform rejection status other
than `BUFFER_TOO_SMALL` is returned to the caller unchanged. -/
theorem get_next_variable_name_edge_validation (dbg : Bool)
    (raw : NextVarRaw) (prev_name : List Nat) (prev_ns : Guid) :
    (prev_name.length = 0 →
      RuntimeServices.get_next_variable_name dbg (some raw) prev_name prev_ns
        = ((if dbg then .panic else .err EFI_INVALID_PARAMETER), [])) ∧
    (prev_name.length ≠ 0 →
      Status.is_error (raw 0 ⟨prev_name.length, prev_name, prev_ns⟩).status = true →
      (raw 0 ⟨prev_name.length, prev_name, prev_ns⟩).status ≠ EFI_BUFFER_TOO_SMALL →
      RuntimeServices.get_next_variable_name dbg (some raw) prev_name prev_ns
        = (.err (raw 0 ⟨prev_name.length, prev_name, prev_ns⟩).status,
           [⟨prev_name.length, prev_name, prev_ns⟩])) := by
  constructor
  · intro h
    simp [RuntimeServices.get_next_variable_name, h]
  · intro hlen herr hbts
    rw [RuntimeServices.get_next_variable_name, if_neg hlen]
    show nextNameGo raw prev_name prev_ns true (seedNext prev_name []).length
        (seedNext prev_name []) prev_ns 0 = _
    rw [seedNext_nil]
    rw [nextNameGo]
    simp [hbts, herr]

/-- Witness for C8: the empty previous name is rejected up front with an
empty trace, while the non-terminated previous name `[1, 2]` reaches the
platform and its `INVALID_PARAMETER` rejection is returned unchanged. -/
theorem get_next_variable_name_edge_validation_witness :
    RuntimeServices.get_next_variable_name false
        (some (fun _ _ => ⟨EFI_INVALID_PARAMETER, 0, [], 0⟩)) [] 7
      = (Outcome.err EFI_INVALID_PARAMETER, []) ∧
    RuntimeServices.get_next_variable_name false
        (some (fun _ _ => ⟨EFI_INVALID_PARAMETER, 0, [], 0⟩)) [1, 2] 7
      = (Outcome.err EFI_INVALID_PARAMETER, [⟨2, [1, 2], 7⟩]) :=
  ⟨(get_next_variable_name_edge_validation false
      (fun _ _ => ⟨EFI_INVALID_PARAMETER, 0, [], 0⟩) [] 7).1 rfl,
   (get_next_variable_name_edge_validation false
      (fun _ _ => ⟨EFI_INVALID_PARAMETER, 0, [], 0⟩) [1, 2] 7).2
     (by decide) (by decide) (by decide)⟩

/-- C9: if the first raw call in `get_next_variable_name_unchecked`
reports `BUFFER_TOO_SMALL` with a required size not strictly greater
than the current buffer length, the function panics (the `assert!` is
unconditional in every build configuration) rather than returning an
error. -/
theorem get_next_unchecked_asserts_on_nonincreasing_size (dbg : Bool)
    (raw : NextVarRaw) (prev_name : List Nat) (prev_ns : Guid)
    (next_name : List Nat) (next_ns : Guid) :
    (raw 0 ⟨(seedNext prev_name next_name).length, seedNext prev_name next_name,
        prev_ns⟩).status = EFI_BUFFER_TOO_SMALL →
    (raw 0 ⟨(seedNext prev_name next_name).length, seedNext prev_name next_name,
        prev_ns⟩).name_size ≤ (seedNext prev_name next_name).length →
    StandardRuntimeServices.get_next_variable_name_unchecked dbg (some raw)
        prev_name prev_ns next_name next_ns
      = (Outcome.panic,
         [⟨(seedNext prev_name next_name).length, seedNext prev_name next_name,
           prev_ns⟩]) := by
  intro h1 h2
  show nextNameGo raw prev_name prev_ns true (seedNext prev_name next_name).length
      (seedNext prev_name next_name) prev_ns 0 = _
  rw [nextNameGo]
  simp [h1, overwrite_length, Nat.not_lt.mpr h2]

/-- Witness for C9: a platform reporting `BUFFER_TOO_SMALL` with required
size 2 for a buffer already of length 2 makes the unchecked enumeration
call panic. -/
theorem get_next_unchecked_asserts_on_nonincreasing_size_witness :
    StandardRuntimeServices.get_next_variable_name_unchecked false
        (some (fun _ _ => ⟨EFI_BUFFER_TOO_SMALL, 2, [], 0⟩)) [5, 0] 9 [] 0
      = (Outcome.panic, [⟨2, [5, 0], 9⟩]) :=
  get_next_unchecked_asserts_on_nonincreasing_size false
    (fun _ _ => ⟨EFI_BUFFER_TOO_SMALL, 2, [], 0⟩) [5, 0] 9 [] 0 rfl (by decide)
